import Mathlib

/-!
Shallow embedding of the Document-Analyzer repository
(`document_analyzer.py`, `app.py`) and proofs about its claims.

Strings from the Python side are modelled as `List Char`; the remote
Gemini service is modelled as an explicit environment supplying the
outcome of each remote call, and the side effects of the orchestration
code (upload attempts, sleeps, polls, delete calls) are recorded in an
explicit event trace.
-/

namespace DocAnalyzer

/-! ## Character and string utilities -/

/-- ASCII lowercasing of a character list, modelling the effect of
`re.IGNORECASE` on the ASCII marker literals used by the parser. -/
def lowerList (s : List Char) : List Char := s.map Char.toLower

/-- Python `str.strip()` whitespace class, restricted to the ASCII
whitespace characters Python recognises. -/
def isPySpace (c : Char) : Bool :=
  c == ' ' || c == '\t' || c == '\n' || c == '\r' || c == '\x0b' || c == '\x0c'

/-- Python `str.strip()`: drop leading and trailing whitespace. -/
def pyStrip (s : List Char) : List Char :=
  ((s.dropWhile isPySpace).reverse.dropWhile isPySpace).reverse

/-- Index of the first position `i` of `s` at which `pat` occurs as a
prefix of `s.drop i`; `none` when `pat` occurs nowhere in `s`. -/
def findFirstIdx (pat : List Char) : List Char → Option Nat
  | [] => if pat.isPrefixOf ([] : List Char) then some 0 else none
  | c :: rest =>
      if pat.isPrefixOf (c :: rest) then some 0
      else (findFirstIdx pat rest).map (· + 1)

/-- Number of positions of `s` at which `pat` occurs as a substring. -/
def countOccur (pat : List Char) : List Char → Nat
  | [] => if pat.isPrefixOf ([] : List Char) then 1 else 0
  | c :: rest =>
      (if pat.isPrefixOf (c :: rest) then 1 else 0) + countOccur pat rest

/-- Python `str.split('\n')`: split on every newline, keeping empty chunks. -/
def split_on_nl : List Char → List (List Char)
  | [] => [[]]
  | c :: rest =>
      match split_on_nl rest with
      | [] => [[]]
      | h :: t => if c = '\n' then [] :: h :: t else (c :: h) :: t

/-! ## Parsing constants and the response parser (`document_analyzer.py` 33-37, 256-284) -/

def TEXT_START_MARKER : String := "--- START OF EXTRACTED TEXT ---"
def TEXT_END_MARKER : String := "--- END OF EXTRACTED TEXT ---"
def SUMMARY_START_MARKER : String := "--- START OF SUMMARY ---"
def SUMMARY_END_MARKER : String := "--- END OF SUMMARY ---"

/-- The marker constants as character lists. -/
def TEXT_START_CHARS : List Char := TEXT_START_MARKER.toList
def TEXT_END_CHARS : List Char := TEXT_END_MARKER.toList
def SUMMARY_START_CHARS : List Char := SUMMARY_START_MARKER.toList
def SUMMARY_END_CHARS : List Char := SUMMARY_END_MARKER.toList

/-- Model of `re.search(re.escape(startM) + "(.*?)" + re.escape(endM), s,
re.DOTALL | re.IGNORECASE)` returning group 1: the markers are literal,
matching is case-insensitive and spans newlines, and the leftmost match
with the shortest lazy middle is produced. -/
def re_search_between (startM endM s : List Char) : Option (List Char) :=
  match findFirstIdx (lowerList startM) (lowerList s) with
  | none => none
  | some i =>
      let tail := s.drop (i + startM.length)
      match findFirstIdx (lowerList endM) (lowerList tail) with
      | none => none
      | some j => some (tail.take j)

/-- The marker-based response parser of `analyze_document`
(`document_analyzer.py` lines 256-284), as a pure function of the raw
response text and the extraction mode. -/
def parse_response (extract_mode : String) (full_response_text : List Char) :
    Option (List Char) × Option (List Char) :=
  let extracted_text :=
    (re_search_between TEXT_START_CHARS TEXT_END_CHARS
      full_response_text).map pyStrip
  let summary_text :=
    if extract_mode = "summary" then
      (re_search_between SUMMARY_START_CHARS SUMMARY_END_CHARS
        full_response_text).map pyStrip
    else none
  match extracted_text, summary_text with
  | none, none =>
      if pyStrip full_response_text = [] then (none, none)
      else (some (pyStrip full_response_text), none)
  | e, s => (e, s)

/-! ## Prompt construction (`document_analyzer.py` lines 183-233) -/

/-- `text_dir = "right-to-left" if language == "arabic" else "left-to-right"`. -/
def text_direction (language : String) : String :=
  if language = "arabic" then "right-to-left" else "left-to-right"

/-- The part of both prompt templates before the parenthesised display name. -/
def prompt_head : List Char :=
  "\nPlease analyze the attached document ".toList

/-- The task instructions of the summary-mode template, up to and
including the first of the two newlines that separate them from the
output-format section. -/
def summary_prompt_head (language : String) : List Char :=
  (" and provide the following in " ++ language ++ ":\n\n"
    ++ "**Task 1: Extract and Summarize Content**\n"
    ++ "1. Extract all visible text from the document (including text in images if possible).\n"
    ++ "2. Create a comprehensive summary of the document\x27s content.\n"
    ++ "3. Include key points, main ideas, and important details.\n"
    ++ "4. Format the summary in clear, well-structured paragraphs.\n"
    ++ "5. The summary should be approximately 20-30% of the original text length.\n"
    ++ "6. Ensure the text follows " ++ text_direction language
    ++ " direction appropriate for " ++ language ++ ".\n\n"
    ++ "**Task 2: Full Text Extraction**\n"
    ++ "1. Extract ALL textual content from the document, including any text visible in images.\n"
    ++ "2. Present the extracted text in a clean, readable format.\n"
    ++ "3. Preserve paragraph breaks and important formatting where possible.\n"
    ++ "4. Ensure the text follows " ++ text_direction language
    ++ " direction appropriate for " ++ language ++ ".\n").toList

/-- The output-format section of the summary-mode template. -/
def prompt_output_format_summary : List Char :=
  ("**Output Format:**\n"
    ++ "Please structure your response exactly as follows:\n\n"
    ++ SUMMARY_START_MARKER ++ "\n"
    ++ "[Your detailed summary here]\n"
    ++ SUMMARY_END_MARKER ++ "\n\n"
    ++ TEXT_START_MARKER ++ "\n"
    ++ "[Full extracted text here]\n"
    ++ TEXT_END_MARKER ++ "\n").toList

/-- The summary-mode prompt template after the parenthesised display
name: the task instructions, the second separating newline, and the
output-format section. -/
def summary_prompt_tail (language : String) : List Char :=
  summary_prompt_head language ++ '\n' :: prompt_output_format_summary

/-- The task instructions of the full-mode template, up to and including
the first of the two newlines separating them from the output-format
section. -/
def full_prompt_head (language : String) : List Char :=
  (" and provide the following in " ++ language ++ ":\n\n"
    ++ "**Task: Full Text Extraction**\n"
    ++ "1. Extract ALL textual content from the document, including any text visible in images.\n"
    ++ "2. Present the extracted text in a clean, readable format.\n"
    ++ "3. Preserve paragraph breaks and important formatting where possible.\n"
    ++ "4. Ensure the text follows " ++ text_direction language
    ++ " direction appropriate for " ++ language ++ ".\n"
    ++ "5. DO NOT summarize or alter the content - provide the complete extracted text only.\n").toList

/-- The output-format section of the full-mode template. -/
def prompt_output_format_full : List Char :=
  ("**Output Format:**\n"
    ++ "Please structure your response exactly as follows:\n\n"
    ++ TEXT_START_MARKER ++ "\n"
    ++ "[Full extracted text here]\n"
    ++ TEXT_END_MARKER ++ "\n").toList

/-- The full-mode prompt template after the parenthesised display name. -/
def full_prompt_tail (language : String) : List Char :=
  full_prompt_head language ++ '\n' :: prompt_output_format_full

/-- The prompt built by `analyze_document` (lines 186-233), as the character
list of the Python f-string, split at the interpolated display name. -/
def build_prompt (display_name language extract_mode : String) : List Char :=
  prompt_head ++ '(' :: (display_name.toList ++ ')' ::
    (if extract_mode = "summary" then summary_prompt_tail language
     else full_prompt_tail language))

/-! ## Remote-service model and the upload orchestrator
(`document_analyzer.py` lines 41-94) -/

/-- Lifecycle state of a file registered with the remote service. -/
inductive FileState where
  | uploading
  | processing
  | active
  | failed
  | deleted
deriving DecidableEq

/-- The `state.name` string the SDK reports for a file state. -/
def FileState.stateName : FileState → String
  | .uploading => "UPLOADING"
  | .processing => "PROCESSING"
  | .active => "ACTIVE"
  | .failed => "FAILED"
  | .deleted => "DELETED"

/-- A file object returned by the remote service
(`genai.upload_file` / `genai.get_file`). -/
structure RemoteFile where
  name : String
  display_name : String
  state : FileState
deriving DecidableEq

/-- Observable remote-side effects of the orchestration code, recorded as
an event trace.  A delete call is recorded whether or not it raises. -/
inductive REvent where
  | upload_attempt
  | sleep (seconds : Nat)
  | get_file
  | delete_call (name : String) (raised : Bool)
deriving DecidableEq

/-- Environment modelling the remote service during an upload:
the outcome of the k-th `genai.upload_file` call (`none` = the call
raised), the outcome of the k-th `genai.get_file` poll within a given
upload attempt (`none` = the poll call raised, `some st` = it returned
a file in state `st`), and whether a `genai.delete_file` call raises. -/
structure UploadEnv where
  upload_result : Nat → Option RemoteFile
  poll_result : Nat → Nat → Option FileState
  delete_raises : Bool

/-- How the polling loop of `upload_file_to_gemini` (lines 57-83) hands
control back to the surrounding try: a `return uploaded_file` of an
ACTIVE file, a `return None` (timeout or unexpected terminal state), or
an exception from `genai.get_file` (line 69) propagating out of the
loop into the retry handler at line 85. -/
inductive WaitOutcome where
  | ok (uploaded_file : RemoteFile)
  | failed
  | raised
deriving DecidableEq

/-- The `while uploaded_file.state.name == "PROCESSING"` polling loop and
the post-loop state dispatch of `upload_file_to_gemini` (lines 57-83).
`elapsed` models `time.time() - start_time`, advanced by each 15-second
sleep; the 300-second `processing_timeout` check, the timed-out-file
cleanup, the ACTIVE success path, and the not-DELETED cleanup on an
unexpected terminal state follow the source.  A raising `genai.get_file`
call ends the loop with `WaitOutcome.raised`: the exception escapes to
the caller (no delete is issued on this path). -/
def wait_for_file (env : UploadEnv) (attempt : Nat)
    (uploaded_file : RemoteFile) (elapsed poll_idx : Nat) :
    WaitOutcome × List REvent :=
  if uploaded_file.state.stateName = "PROCESSING" then
    if _h : 300 < elapsed then
      (.failed, [.delete_call uploaded_file.name env.delete_raises])
    else
      match env.poll_result attempt poll_idx with
      | none => (.raised, [.sleep 15, .get_file])
      | some st =>
          let f2 : RemoteFile := { uploaded_file with state := st }
          let r := wait_for_file env attempt f2 (elapsed + 15) (poll_idx + 1)
          (r.1, .sleep 15 :: .get_file :: r.2)
  else if uploaded_file.state.stateName = "ACTIVE" then
    (.ok uploaded_file, [])
  else
    if uploaded_file.state.stateName ≠ "DELETED" then
      (.failed, [.delete_call uploaded_file.name env.delete_raises])
    else
      (.failed, [])
termination_by 301 - elapsed
decreasing_by omega

/-- The `while attempt < retries` retry loop of `upload_file_to_gemini`
(lines 51-94).  The `except Exception` at line 85 scopes over the whole
try body, so both a raising `genai.upload_file` call and an exception
propagating out of the polling loop (a raising `genai.get_file`)
increment `attempt`, sleep `delay` seconds when retries remain, and
retry the upload from scratch — in the latter case abandoning the
previously uploaded handle without a delete call. -/
def upload_loop (env : UploadEnv) (retries delay attempt : Nat) :
    Option RemoteFile × List REvent :=
  if _h : attempt < retries then
    match env.upload_result attempt with
    | some uploaded_file =>
        match (wait_for_file env attempt uploaded_file 0 0).1 with
        | .ok g =>
            (some g,
             .upload_attempt :: (wait_for_file env attempt uploaded_file 0 0).2)
        | .failed =>
            (none,
             .upload_attempt :: (wait_for_file env attempt uploaded_file 0 0).2)
        | .raised =>
            if attempt + 1 < retries then
              ((upload_loop env retries delay (attempt + 1)).1,
               .upload_attempt ::
                 (wait_for_file env attempt uploaded_file 0 0).2 ++
                   .sleep delay :: (upload_loop env retries delay (attempt + 1)).2)
            else
              (none,
               .upload_attempt ::
                 (wait_for_file env attempt uploaded_file 0 0).2)
    | none =>
        if attempt + 1 < retries then
          ((upload_loop env retries delay (attempt + 1)).1,
           .upload_attempt :: .sleep delay ::
             (upload_loop env retries delay (attempt + 1)).2)
        else
          (none, [.upload_attempt])
  else
    (none, [])
termination_by retries - attempt
decreasing_by all_goals omega

/-- `upload_file_to_gemini(file_path, retries=3, delay=5)` (lines 41-94);
`file_exists` models `os.path.exists(file_path)`. -/
def upload_file_to_gemini (env : UploadEnv) (file_exists : Bool)
    (retries delay : Nat) : Option RemoteFile × List REvent :=
  if file_exists = false then (none, [])
  else upload_loop env retries delay 0

/-! ## Analysis (`document_analyzer.py` lines 169-297) -/

/-- A generation response: whether it has a `text` attribute, and the text. -/
structure GenResponse where
  has_text : Bool
  text : String
deriving DecidableEq

/-- Environment for one `model.generate_content` call: the response as a
function of the prompt (`.error` = the call raised), and whether the
cleanup `genai.delete_file` call raises. -/
structure GenEnv where
  gen_result : List Char → Except Unit GenResponse
  delete_raises : Bool

/-- `analyze_document(uploaded_file, extract_mode, language)` (lines
169-297): build the prompt, issue the generation call, parse the
response, and, in a `finally` block, delete the uploaded file (the
delete call is issued when the file object and its name are truthy, and
a raising delete is caught). -/
def analyze_document (env : GenEnv) (uploaded_file : RemoteFile)
    (extract_mode language : String) :
    (Option (List Char) × Option (List Char)) × List REvent :=
  let prompt := build_prompt uploaded_file.display_name language extract_mode
  let cleanup : List REvent :=
    if uploaded_file.name ≠ "" then
      [.delete_call uploaded_file.name env.delete_raises]
    else []
  match env.gen_result prompt with
  | .error _ => ((none, none), cleanup)
  | .ok response =>
      if response.has_text = false then ((none, none), cleanup)
      else (parse_response extract_mode response.text.toList, cleanup)

/-! ## Main pipeline and content selection
(`document_analyzer.py` lines 320-328, `app.py` line 214) -/

/-- Pipeline of `__main__`: upload, then, only on success, analyze. -/
def run_pipeline (uenv : UploadEnv) (genv : GenEnv) (file_exists : Bool)
    (extract_mode language : String) :
    (Option (List Char) × Option (List Char)) × List REvent :=
  match upload_file_to_gemini uenv file_exists 3 5 with
  | (none, tr) => ((none, none), tr)
  | (some uploaded_file, tr) =>
      let r := analyze_document genv uploaded_file extract_mode language
      (r.1, tr ++ r.2)

/-- Python truthiness of an optional string value. -/
def optTruthy : Option (List Char) → Bool
  | none => false
  | some s => !s.isEmpty

/-- `content_to_save = summary_text if args.mode == "summary" and
summary_text else extracted_text` (`document_analyzer.py` line 328,
`app.py` line 214). -/
def select_content (mode : String)
    (extracted_text summary_text : Option (List Char)) : Option (List Char) :=
  if mode == "summary" && optTruthy summary_text then summary_text
  else extracted_text

/-! ## Word document writer (`document_analyzer.py` lines 118-167) -/

/-- Paragraph alignment values used by the writer; a paragraph whose
alignment was never assigned keeps the default (left) alignment,
modelled as `none` at use sites. -/
inductive DocAlignment where
  | center
  | right
deriving DecidableEq

/-- A docx paragraph: its alignment (or `none` for the default) and the
text of its runs. -/
structure DocParagraph where
  alignment : Option DocAlignment
  runs : List (List Char)
deriving DecidableEq

/-- A docx document: the alignment of the base Normal style (or `none`
for the default) and its paragraphs. -/
structure WordDoc where
  normal_alignment : Option DocAlignment
  paragraphs : List DocParagraph
deriving DecidableEq

/-- The document built by `save_to_word_file` (lines 132-159): RTL styling
for `language == "arabic"`, a centered title paragraph, a spacer
paragraph, and one right-aligned (when RTL) paragraph per non-blank
newline-delimited chunk of the content. -/
def build_word_doc (content title : List Char) (language : String) : WordDoc :=
  let rtl := language = "arabic"
  let normal_alignment : Option DocAlignment :=
    if rtl then some .right else none
  let title_paragraph : DocParagraph :=
    { alignment := some .center, runs := [title] }
  let spacer : DocParagraph := { alignment := none, runs := [] }
  let body :=
    ((split_on_nl content).filter fun para => !(pyStrip para).isEmpty).map
      fun para =>
        { alignment := if rtl then some DocAlignment.right else none,
          runs := [para] }
  { normal_alignment := normal_alignment,
    paragraphs := title_paragraph :: spacer :: body }

/-- `save_to_word_file(content, output_path, title, language)`: `None`
content is rejected (`return False`), otherwise the document above is
produced. -/
def save_to_word_file (content : Option (List Char)) (title : List Char)
    (language : String) : Option WordDoc :=
  match content with
  | none => none
  | some c => some (build_word_doc c title language)

/-! ## Lemmas about the string utilities -/

lemma isPrefixOf_nil_of_ne_nil (pat : List Char) (h : pat ≠ []) :
    pat.isPrefixOf ([] : List Char) = false := by
  cases pat with
  | nil => exact absurd rfl h
  | cons c t => rfl

lemma isPrefixOf_append_sep (sep : Char) (B : List Char) :
    ∀ (pat S : List Char), sep ∉ pat →
      pat.isPrefixOf (S ++ sep :: B) = pat.isPrefixOf S := by
  intro pat
  induction pat with
  | nil => intro S _; simp [List.isPrefixOf]
  | cons p ps ih =>
    intro S hsep
    cases S with
    | nil =>
      have hp : (p == sep) = false := by
        simp only [beq_eq_false_iff_ne, ne_eq]
        intro h
        exact hsep (h ▸ List.mem_cons_self p ps)
      simp [List.isPrefixOf, hp]
    | cons s S2 =>
      simp only [List.cons_append, List.isPrefixOf, List.append_eq]
      rw [ih S2 (fun h => hsep (List.mem_cons_of_mem p h))]

lemma countOccur_nil_of_ne_nil (pat : List Char) (h : pat ≠ []) :
    countOccur pat [] = 0 := by
  simp [countOccur, isPrefixOf_nil_of_ne_nil pat h]

lemma countOccur_append_sep (pat : List Char) (sep : Char) (A B : List Char)
    (hp : pat ≠ []) (hsep : sep ∉ pat) :
    countOccur pat (A ++ sep :: B) = countOccur pat A + countOccur pat B := by
  induction A with
  | nil =>
    obtain ⟨p, ps, rfl⟩ := List.exists_cons_of_ne_nil hp
    have hps : (p == sep) = false := by
      simp only [beq_eq_false_iff_ne, ne_eq]
      intro h
      exact hsep (h ▸ List.mem_cons_self p ps)
    simp [countOccur, List.isPrefixOf, hps,
      isPrefixOf_nil_of_ne_nil _ hp]
  | cons a A2 ih =>
    have hstep : (a :: A2) ++ sep :: B = a :: (A2 ++ sep :: B) := rfl
    rw [hstep]
    simp only [countOccur]
    have hpref : pat.isPrefixOf (a :: (A2 ++ sep :: B)) = pat.isPrefixOf (a :: A2) := by
      have := isPrefixOf_append_sep sep B pat (a :: A2) hsep
      simpa using this
    rw [hpref, ih]
    omega

lemma findFirstIdx_eq_some_spec (pat : List Char) :
    ∀ (s : List Char) (i : Nat), findFirstIdx pat s = some i →
      pat.isPrefixOf (s.drop i) = true ∧
      ∀ j, j < i → pat.isPrefixOf (s.drop j) = false := by
  intro s
  induction s with
  | nil =>
    intro i h
    simp only [findFirstIdx] at h
    split at h
    · rename_i hc
      cases h
      exact ⟨hc, fun j hj => absurd hj (Nat.not_lt_zero j)⟩
    · cases h
  | cons c t ih =>
    intro i h
    simp only [findFirstIdx] at h
    split at h
    · rename_i hc
      cases h
      exact ⟨hc, fun j hj => absurd hj (Nat.not_lt_zero j)⟩
    · rename_i hc
      obtain ⟨i2, hi2, rfl⟩ := Option.map_eq_some'.mp h
      obtain ⟨h1, h2⟩ := ih i2 hi2
      refine ⟨by simpa using h1, ?_⟩
      intro j hj
      cases j with
      | zero => simpa using Bool.not_eq_true _ |>.mp hc
      | succ j2 =>
        have : j2 < i2 := by omega
        simpa using h2 j2 this

lemma findFirstIdx_eq_none_spec (pat : List Char) :
    ∀ (s : List Char), findFirstIdx pat s = none →
      ∀ i, pat.isPrefixOf (s.drop i) = false := by
  intro s
  induction s with
  | nil =>
    intro h i
    simp only [findFirstIdx] at h
    split at h
    · cases h
    · rename_i hc
      simpa [List.drop_nil] using Bool.not_eq_true _ |>.mp hc
  | cons c t ih =>
    intro h i
    simp only [findFirstIdx] at h
    split at h
    · cases h
    · rename_i hc
      have hrest : findFirstIdx pat t = none := by
        cases hr : findFirstIdx pat t with
        | none => rfl
        | some v => rw [hr] at h; cases h
      cases i with
      | zero => simpa using Bool.not_eq_true _ |>.mp hc
      | succ i2 => simpa using ih hrest i2

lemma findFirstIdx_eq_some_iff (pat s : List Char) (i : Nat) :
    findFirstIdx pat s = some i ↔
      (pat.isPrefixOf (s.drop i) = true ∧
       ∀ j, j < i → pat.isPrefixOf (s.drop j) = false) := by
  constructor
  · exact findFirstIdx_eq_some_spec pat s i
  · rintro ⟨h1, h2⟩
    cases hr : findFirstIdx pat s with
    | none => exact absurd (findFirstIdx_eq_none_spec pat s hr i) (by simp [h1])
    | some i2 =>
      obtain ⟨g1, g2⟩ := findFirstIdx_eq_some_spec pat s i2 hr
      have : i = i2 := by
        by_contra hne
        rcases Nat.lt_or_ge i i2 with hlt | hge
        · exact absurd (g2 i hlt) (by simp [h1])
        · have : i2 < i := by omega
          exact absurd (h2 i2 this) (by simp [g1])
      exact this ▸ rfl

lemma findFirstIdx_append_sep (pat : List Char) (sep : Char) (B : List Char)
    (hp : pat ≠ []) (hsep : sep ∉ pat) :
    ∀ A, countOccur pat A = 0 →
      findFirstIdx pat (A ++ sep :: B) =
        (findFirstIdx pat B).map (· + (A.length + 1)) := by
  intro A
  induction A with
  | nil =>
    intro _
    obtain ⟨p, ps, rfl⟩ := List.exists_cons_of_ne_nil hp
    have hps : (p == sep) = false := by
      simp only [beq_eq_false_iff_ne, ne_eq]
      intro h
      exact hsep (h ▸ List.mem_cons_self p ps)
    simp only [List.nil_append, findFirstIdx, List.isPrefixOf, hps,
      Bool.false_and, if_false, List.length_nil, Nat.zero_add]
    simp
  | cons a A2 ih =>
    intro hcount
    simp only [countOccur] at hcount
    have hpref : pat.isPrefixOf (a :: A2) = false := by
      by_cases h : pat.isPrefixOf (a :: A2) = true
      · rw [if_pos h] at hcount; omega
      · exact Bool.not_eq_true _ |>.mp h
    have hcount2 : countOccur pat A2 = 0 := by
      rw [hpref] at hcount
      simpa using hcount
    have hstep : (a :: A2) ++ sep :: B = a :: (A2 ++ sep :: B) := rfl
    rw [hstep]
    simp only [findFirstIdx]
    have hpref2 : pat.isPrefixOf (a :: (A2 ++ sep :: B)) = false := by
      have := isPrefixOf_append_sep sep B pat (a :: A2) hsep
      simpa [hpref] using this
    rw [hpref2]
    simp only [Bool.false_eq_true, if_false, ih hcount2]
    cases findFirstIdx pat B with
    | none => rfl
    | some v =>
      simp only [Option.map_some', List.length_cons]
      congr 1

lemma dropWhile_idem (p : Char → Bool) (l : List Char) :
    (l.dropWhile p).dropWhile p = l.dropWhile p := by
  induction l with
  | nil => rfl
  | cons c t ih =>
    by_cases h : p c
    · simp [List.dropWhile_cons, h, ih]
    · simp [List.dropWhile_cons, h]

lemma dropWhile_head_false (p : Char → Bool) :
    ∀ (l : List Char) (c : Char) (t : List Char),
      l.dropWhile p = c :: t → p c = false := by
  intro l
  induction l with
  | nil => intro c t h; simp [List.dropWhile] at h
  | cons a l2 ih =>
    intro c t h
    by_cases ha : p a
    · rw [List.dropWhile_cons_of_pos ha] at h
      exact ih c t h
    · rw [List.dropWhile_cons_of_neg ha] at h
      cases h
      exact Bool.not_eq_true _ |>.mp ha

lemma pyStrip_idem (s : List Char) : pyStrip (pyStrip s) = pyStrip s := by
  have hsplit : ∃ T, s.dropWhile isPySpace =
      pyStrip s ++ T := by
    refine ⟨((s.dropWhile isPySpace).reverse.takeWhile isPySpace).reverse, ?_⟩
    conv_lhs => rw [← List.reverse_reverse (s.dropWhile isPySpace),
      ← List.takeWhile_append_dropWhile (p := isPySpace)
        (l := (s.dropWhile isPySpace).reverse)]
    rw [List.reverse_append]
    rfl
  have hRdrop : (pyStrip s).dropWhile isPySpace = pyStrip s := by
    cases hc : pyStrip s with
    | nil => rfl
    | cons c R2 =>
      obtain ⟨T, hT⟩ := hsplit
      rw [hc] at hT
      have hLc : s.dropWhile isPySpace = c :: (R2 ++ T) := by
        rw [hT]; rfl
      have hpc : isPySpace c = false := dropWhile_head_false isPySpace s c _ hLc
      rw [List.dropWhile_cons_of_neg (by simp [hpc])]
  show ((((pyStrip s).dropWhile isPySpace).reverse.dropWhile isPySpace).reverse)
      = pyStrip s
  rw [hRdrop]
  have hRrev : (pyStrip s).reverse =
      (s.dropWhile isPySpace).reverse.dropWhile isPySpace := by
    unfold pyStrip
    rw [List.reverse_reverse]
  rw [hRrev, dropWhile_idem, ← hRrev, List.reverse_reverse]

/-! ## Parser claims -/

lemma parse_response_full_found (raw g : List Char)
    (h : re_search_between TEXT_START_CHARS TEXT_END_CHARS raw = some g) :
    parse_response "full" raw = (some (pyStrip g), none) := by
  simp [parse_response, h]

/-- Option values that are images of `pyStrip` are fixed by `pyStrip`. -/
lemma pyStrip_fixed_of_opt (a : Option (List Char))
    (ha : a = none ∨ ∃ u, a = some (pyStrip u)) :
    ∀ t, a = some t → pyStrip t = t := by
  intro t ht
  rcases ha with rfl | ⟨u, hu⟩
  · cases ht
  · rw [hu] at ht
    injection ht with ht2
    rw [← ht2]
    exact pyStrip_idem u

/-- Every component produced by the parser is either absent or the
`pyStrip` of some string. -/
lemma parse_response_shape (mode : String) (raw : List Char) :
    ((parse_response mode raw).1 = none ∨
      ∃ u, (parse_response mode raw).1 = some (pyStrip u)) ∧
    ((parse_response mode raw).2 = none ∨
      ∃ u, (parse_response mode raw).2 = some (pyStrip u)) := by
  by_cases hm : mode = "summary"
  · cases h1 : re_search_between TEXT_START_CHARS TEXT_END_CHARS raw with
    | some g1 =>
      cases h2 : re_search_between SUMMARY_START_CHARS SUMMARY_END_CHARS raw with
      | some g2 =>
        have hp : parse_response mode raw =
            (some (pyStrip g1), some (pyStrip g2)) := by
          simp [parse_response, h1, h2, hm]
        rw [hp]
        exact ⟨Or.inr ⟨g1, rfl⟩, Or.inr ⟨g2, rfl⟩⟩
      | none =>
        have hp : parse_response mode raw = (some (pyStrip g1), none) := by
          simp [parse_response, h1, h2, hm]
        rw [hp]
        exact ⟨Or.inr ⟨g1, rfl⟩, Or.inl rfl⟩
    | none =>
      cases h2 : re_search_between SUMMARY_START_CHARS SUMMARY_END_CHARS raw with
      | some g2 =>
        have hp : parse_response mode raw = (none, some (pyStrip g2)) := by
          simp [parse_response, h1, h2, hm]
        rw [hp]
        exact ⟨Or.inl rfl, Or.inr ⟨g2, rfl⟩⟩
      | none =>
        by_cases h3 : pyStrip raw = []
        · have hp : parse_response mode raw = (none, none) := by
            simp [parse_response, h1, h2, hm, h3]
          rw [hp]
          exact ⟨Or.inl rfl, Or.inl rfl⟩
        · have hp : parse_response mode raw = (some (pyStrip raw), none) := by
            simp [parse_response, h1, h2, hm, h3]
          rw [hp]
          exact ⟨Or.inr ⟨raw, rfl⟩, Or.inl rfl⟩
  · cases h1 : re_search_between TEXT_START_CHARS TEXT_END_CHARS raw with
    | some g1 =>
      have hp : parse_response mode raw = (some (pyStrip g1), none) := by
        simp [parse_response, h1, hm]
      rw [hp]
      exact ⟨Or.inr ⟨g1, rfl⟩, Or.inl rfl⟩
    | none =>
      by_cases h3 : pyStrip raw = []
      · have hp : parse_response mode raw = (none, none) := by
          simp [parse_response, h1, hm, h3]
        rw [hp]
        exact ⟨Or.inl rfl, Or.inl rfl⟩
      · have hp : parse_response mode raw = (some (pyStrip raw), none) := by
          simp [parse_response, h1, hm, h3]
        rw [hp]
        exact ⟨Or.inr ⟨raw, rfl⟩, Or.inl rfl⟩

/-- Claim C2: for every raw response, the parser returns as fullText the
first substring strictly between the text start and end markers, matched
case-insensitively (via ASCII lowercasing) with the match spanning
newlines, trimmed of whitespace, and the marker search yields nothing
when no such marker pair occurs; parsing the concrete synthetic response
in FULL mode yields fullText HELLO and no summaryText. -/
theorem claim_C2_marker_extraction :
    (∀ (raw g : List Char),
      re_search_between TEXT_START_CHARS TEXT_END_CHARS raw = some g ↔
        ∃ i j,
          (lowerList TEXT_START_CHARS).isPrefixOf
              ((lowerList raw).drop i) = true ∧
          (∀ i2, i2 < i → (lowerList TEXT_START_CHARS).isPrefixOf
              ((lowerList raw).drop i2) = false) ∧
          (lowerList TEXT_END_CHARS).isPrefixOf
              ((lowerList (raw.drop (i + TEXT_START_CHARS.length))).drop j)
              = true ∧
          (∀ j2, j2 < j → (lowerList TEXT_END_CHARS).isPrefixOf
              ((lowerList (raw.drop (i + TEXT_START_CHARS.length))).drop j2)
              = false) ∧
          g = (raw.drop (i + TEXT_START_CHARS.length)).take j) ∧
    (∀ (raw g : List Char),
      re_search_between TEXT_START_CHARS TEXT_END_CHARS raw = some g →
      parse_response "full" raw = (some (pyStrip g), none)) ∧
    parse_response "full"
        ("--- START OF EXTRACTED TEXT ---\nHELLO\n--- END OF EXTRACTED TEXT ---".toList)
      = (some ("HELLO".toList), none) := by
  refine ⟨?_, parse_response_full_found, by decide⟩
  intro raw g
  have hlow : lowerList (raw.drop (0 + TEXT_START_CHARS.length)) =
      lowerList (raw.drop (0 + TEXT_START_CHARS.length)) := rfl
  constructor
  · intro h
    simp only [re_search_between] at h
    cases hf : findFirstIdx (lowerList TEXT_START_CHARS) (lowerList raw) with
    | none => simp [hf] at h
    | some i =>
      simp only [hf] at h
      cases hg : findFirstIdx (lowerList TEXT_END_CHARS)
          (lowerList (raw.drop (i + TEXT_START_CHARS.length))) with
      | none => simp [hg] at h
      | some j =>
        simp only [hg, Option.some.injEq] at h
        obtain ⟨h1, h2⟩ := findFirstIdx_eq_some_spec _ _ _ hf
        obtain ⟨h3, h4⟩ := findFirstIdx_eq_some_spec _ _ _ hg
        exact ⟨i, j, h1, fun i2 hi2 => h2 i2 hi2, h3,
          fun j2 hj2 => h4 j2 hj2, h.symm⟩
  · rintro ⟨i, j, h1, h2, h3, h4, rfl⟩
    have hf : findFirstIdx (lowerList TEXT_START_CHARS) (lowerList raw)
        = some i := (findFirstIdx_eq_some_iff _ _ _).mpr ⟨h1, h2⟩
    have hg : findFirstIdx (lowerList TEXT_END_CHARS)
        (lowerList (raw.drop (i + TEXT_START_CHARS.length))) = some j :=
      (findFirstIdx_eq_some_iff _ _ _).mpr ⟨h3, h4⟩
    simp only [re_search_between, hf, hg]

theorem claim_C2_witness :
    parse_response "full"
        ("--- start of extracted text ---\nHi\n--- END OF EXTRACTED TEXT ---".toList)
      = (some ("Hi".toList), none) := by
  have h := claim_C2_marker_extraction.2.1
    ("--- start of extracted text ---\nHi\n--- END OF EXTRACTED TEXT ---".toList)
    ("\nHi\n".toList) (by decide)
  rw [h]
  decide

/-- Claim C3: when neither the text section nor the (searched-for)
summary section is found and the raw response has non-whitespace
content, the parser returns the whole trimmed raw response as fullText;
when either section is found by marker search the fallback is not
applied and the outputs are exactly the marker-search results. -/
theorem claim_C3_fallback_policy (raw : List Char) (mode : String) :
    ((re_search_between TEXT_START_CHARS TEXT_END_CHARS raw = none ∧
      (mode = "summary" →
        re_search_between SUMMARY_START_CHARS SUMMARY_END_CHARS raw = none) ∧
      pyStrip raw ≠ []) →
      parse_response mode raw = (some (pyStrip raw), none)) ∧
    ((re_search_between TEXT_START_CHARS TEXT_END_CHARS raw ≠ none ∨
      (mode = "summary" ∧
        re_search_between SUMMARY_START_CHARS SUMMARY_END_CHARS raw ≠ none)) →
      parse_response mode raw =
        ((re_search_between TEXT_START_CHARS TEXT_END_CHARS raw).map pyStrip,
         if mode = "summary" then
           (re_search_between SUMMARY_START_CHARS SUMMARY_END_CHARS raw).map
             pyStrip
         else none)) := by
  constructor
  · rintro ⟨ha, hb, hc⟩
    by_cases hm : mode = "summary"
    · have hb2 := hb hm
      simp [parse_response, ha, hb2, hm, hc]
    · simp [parse_response, ha, hm, hc]
  · intro hor
    by_cases hm : mode = "summary"
    · cases h1 : re_search_between TEXT_START_CHARS TEXT_END_CHARS raw with
      | some g1 =>
        cases h2 : re_search_between SUMMARY_START_CHARS SUMMARY_END_CHARS raw
            with
        | some g2 => simp [parse_response, h1, h2, hm]
        | none => simp [parse_response, h1, h2, hm]
      | none =>
        cases h2 : re_search_between SUMMARY_START_CHARS SUMMARY_END_CHARS raw
            with
        | some g2 => simp [parse_response, h1, h2, hm]
        | none =>
          rcases hor with hor | ⟨_, hor⟩
          · exact absurd h1 hor
          · exact absurd h2 hor
    · rcases hor with hor | ⟨hm2, _⟩
      · cases h1 : re_search_between TEXT_START_CHARS TEXT_END_CHARS raw with
        | some g1 => simp [parse_response, h1, hm]
        | none => exact absurd h1 hor
      · exact absurd hm2 hm

theorem claim_C3_witness :
    parse_response "full" ("just some text".toList)
      = (some ("just some text".toList), none) := by
  have h := (claim_C3_fallback_policy ("just some text".toList) "full").1
    ⟨by decide, fun hm => absurd hm (by decide), by decide⟩
  rw [h]
  decide

/-- Claim C9: every non-absent string returned by the parser (fullText or
summaryText, including the fallback path) equals its own
whitespace-trimmed form. -/
theorem claim_C9_outputs_trimmed (mode : String) (raw : List Char) :
    (∀ t, (parse_response mode raw).1 = some t → pyStrip t = t) ∧
    (∀ t, (parse_response mode raw).2 = some t → pyStrip t = t) :=
  ⟨pyStrip_fixed_of_opt _ (parse_response_shape mode raw).1,
   pyStrip_fixed_of_opt _ (parse_response_shape mode raw).2⟩

theorem claim_C9_witness :
    pyStrip ("HELLO".toList) = "HELLO".toList :=
  (claim_C9_outputs_trimmed "full"
    ("--- START OF EXTRACTED TEXT ---\n  HELLO\n--- END OF EXTRACTED TEXT ---".toList)).1
    ("HELLO".toList) (by decide)

/-- Claim C10: the analysis operation never propagates an exception
raised during generation or parsing: when the generation call raises, it
returns the pair (no fullText, no summaryText). -/
theorem claim_C10_no_exception_propagation (genv : GenEnv) (f : RemoteFile)
    (extract_mode language : String)
    (h : genv.gen_result (build_prompt f.display_name language extract_mode)
        = Except.error ()) :
    (analyze_document genv f extract_mode language).1 = (none, none) := by
  simp [analyze_document, h]

theorem claim_C10_witness :
    (analyze_document
        { gen_result := fun _ => Except.error (), delete_raises := false }
        { name := "files/abc", display_name := "doc.pdf",
          state := FileState.active }
        "full" "english").1 = (none, none) :=
  claim_C10_no_exception_propagation _ _ _ _ rfl

/-- Claim C7 counterexample: with mode SUMMARY and a present-but-empty
summary text, the caller selects the fullText, not the summary, so the
claim that the summary is saved whenever mode is SUMMARY and the summary
is present fails. -/
theorem claim_C7_counterexample :
    select_content "summary" (some ("x".toList)) (some ("".toList))
        = some ("x".toList) ∧
    some ("x".toList) ≠ (some ("".toList) : Option (List Char)) := by
  constructor
  · decide
  · decide

/-- Claim C7 (amended): the caller saves the summary text iff the mode is
SUMMARY and the summary text is present and non-empty; in every other
case (mode not SUMMARY, absent summary, or present-but-empty summary) it
saves the fullText. -/
theorem claim_C7_selection_amended (mode : String)
    (extracted summary : Option (List Char)) :
    ((mode = "summary" ∧ ∃ t, summary = some t ∧ t ≠ []) →
      select_content mode extracted summary = summary) ∧
    ((mode ≠ "summary" ∨ summary = none ∨ summary = some []) →
      select_content mode extracted summary = extracted) := by
  constructor
  · rintro ⟨hm, t, rfl, ht⟩
    cases t with
    | nil => exact absurd rfl ht
    | cons c cs => simp [select_content, hm, optTruthy]
  · rintro (hm | rfl | rfl)
    · simp [select_content, beq_eq_false_iff_ne.mpr hm]
    · simp [select_content, optTruthy]
    · simp [select_content, optTruthy]

theorem claim_C7_witness :
    select_content "summary" (some ("x".toList)) (some ("s".toList))
        = some ("s".toList) ∧
    select_content "full" (some ("x".toList)) (some ("s".toList))
        = some ("x".toList) :=
  ⟨(claim_C7_selection_amended "summary" _ _).1 ⟨rfl, "s".toList, rfl, by decide⟩,
   (claim_C7_selection_amended "full" _ _).2 (Or.inl (by decide))⟩

/-- Claim C8: with the RTL flag (language arabic) every content paragraph
and the Normal style are right-aligned, without it content paragraphs
keep the default alignment; the title paragraph is always centered; and
blank newline-delimited chunks produce no paragraph, so the paragraph
count is two plus the number of non-blank chunks. -/
theorem claim_C8_word_writer_alignment (content title : List Char)
    (language : String) :
    (build_word_doc content title language).normal_alignment =
      (if language = "arabic" then some DocAlignment.right else none) ∧
    (build_word_doc content title language).paragraphs.head? =
      some { alignment := some DocAlignment.center, runs := [title] } ∧
    (∀ p ∈ (build_word_doc content title language).paragraphs.drop 2,
      p.alignment =
        (if language = "arabic" then some DocAlignment.right else none) ∧
      ∃ chunk ∈ split_on_nl content, pyStrip chunk ≠ [] ∧ p.runs = [chunk]) ∧
    (build_word_doc content title language).paragraphs.length =
      2 + ((split_on_nl content).filter fun c => !(pyStrip c).isEmpty).length := by
  refine ⟨by simp [build_word_doc], by simp [build_word_doc], ?_, ?_⟩
  · intro p hp
    simp only [build_word_doc, List.drop_succ_cons, List.drop_zero,
      List.mem_map] at hp
    obtain ⟨chunk, hchunk, rfl⟩ := hp
    rw [List.mem_filter] at hchunk
    refine ⟨rfl, chunk, hchunk.1, ?_, rfl⟩
    have := hchunk.2
    simp only [Bool.not_eq_true'] at this
    intro hnil
    rw [hnil] at this
    cases this
  · simp only [build_word_doc, List.length_cons, List.length_map]
    omega

theorem claim_C8_witness :
    (build_word_doc ("A\n \nB".toList) ("T".toList) "arabic").normal_alignment
        = some DocAlignment.right ∧
    ({ alignment := some DocAlignment.right, runs := [['A']] } :
        DocParagraph).alignment = some DocAlignment.right := by
  have h := claim_C8_word_writer_alignment ("A\n \nB".toList) ("T".toList)
    "arabic"
  exact ⟨by simpa using h.1, (h.2.2.1 _ (by decide)).1⟩

/-! ## Upload orchestrator claims -/

/-- Recogniser for delete events in a trace. -/
def isDeleteEvent : REvent → Bool
  | .delete_call _ _ => true
  | _ => false

/-- Recogniser for upload-attempt events in a trace. -/
def isAttemptEvent : REvent → Bool
  | .upload_attempt => true
  | _ => false

lemma stateName_eq_processing {st : FileState} :
    st.stateName = "PROCESSING" ↔ st = FileState.processing := by
  cases st <;> decide

lemma stateName_eq_deleted {st : FileState} :
    st.stateName = "DELETED" ↔ st = FileState.deleted := by
  cases st <;> decide

lemma wait_for_file_timeout_eq (env : UploadEnv) (a : Nat) (f : RemoteFile)
    (e i : Nat) (h1 : f.state.stateName = "PROCESSING") (h2 : 300 < e) :
    wait_for_file env a f e i =
      (WaitOutcome.failed,
       [REvent.delete_call f.name env.delete_raises]) := by
  rw [wait_for_file.eq_def, if_pos h1, dif_pos h2]

lemma wait_for_file_step_eq (env : UploadEnv) (a : Nat) (f : RemoteFile)
    (e i : Nat) (st : FileState)
    (h1 : f.state.stateName = "PROCESSING") (h2 : ¬ 300 < e)
    (hp : env.poll_result a i = some st) :
    wait_for_file env a f e i =
      ((wait_for_file env a { f with state := st } (e + 15) (i + 1)).1,
       REvent.sleep 15 :: REvent.get_file ::
         (wait_for_file env a { f with state := st } (e + 15) (i + 1)).2) := by
  rw [wait_for_file.eq_def, if_pos h1, dif_neg h2, hp]

lemma wait_for_file_raised_eq (env : UploadEnv) (a : Nat) (f : RemoteFile)
    (e i : Nat)
    (h1 : f.state.stateName = "PROCESSING") (h2 : ¬ 300 < e)
    (hp : env.poll_result a i = none) :
    wait_for_file env a f e i =
      (WaitOutcome.raised, [REvent.sleep 15, REvent.get_file]) := by
  rw [wait_for_file.eq_def, if_pos h1, dif_neg h2, hp]

lemma wait_for_file_active_eq (env : UploadEnv) (a : Nat) (f : RemoteFile)
    (e i : Nat)
    (h1 : ¬ f.state.stateName = "PROCESSING")
    (h2 : f.state.stateName = "ACTIVE") :
    wait_for_file env a f e i = (WaitOutcome.ok f, []) := by
  rw [wait_for_file.eq_def, if_neg h1, if_pos h2]

lemma wait_for_file_other_eq (env : UploadEnv) (a : Nat) (f : RemoteFile)
    (e i : Nat)
    (h1 : ¬ f.state.stateName = "PROCESSING")
    (h2 : ¬ f.state.stateName = "ACTIVE")
    (h3 : f.state.stateName ≠ "DELETED") :
    wait_for_file env a f e i =
      (WaitOutcome.failed,
       [REvent.delete_call f.name env.delete_raises]) := by
  rw [wait_for_file.eq_def, if_neg h1, if_neg h2, if_pos h3]

lemma wait_for_file_deleted_eq (env : UploadEnv) (a : Nat) (f : RemoteFile)
    (e i : Nat)
    (h1 : ¬ f.state.stateName = "PROCESSING")
    (h2 : ¬ f.state.stateName = "ACTIVE")
    (h3 : ¬ f.state.stateName ≠ "DELETED") :
    wait_for_file env a f e i = (WaitOutcome.failed, []) := by
  rw [wait_for_file.eq_def, if_neg h1, if_neg h2, if_neg h3]

/-- If the remote file stays in PROCESSING at every (non-raising) poll of
this attempt, the wait loop times out, issues exactly one delete call
for the handle, and fails. -/
lemma wait_for_file_always_processing (env : UploadEnv) (a : Nat)
    (hpoll : ∀ k, env.poll_result a k = some FileState.processing) :
    ∀ (f : RemoteFile) (e i : Nat), f.state = FileState.processing →
      (wait_for_file env a f e i).1 = WaitOutcome.failed ∧
      (wait_for_file env a f e i).2.filter isDeleteEvent =
        [REvent.delete_call f.name env.delete_raises] := by
  have aux : ∀ (n : Nat) (f : RemoteFile) (e i : Nat), 301 - e ≤ n →
      f.state = FileState.processing →
      (wait_for_file env a f e i).1 = WaitOutcome.failed ∧
      (wait_for_file env a f e i).2.filter isDeleteEvent =
        [REvent.delete_call f.name env.delete_raises] := by
    intro n
    induction n with
    | zero =>
      intro f e i hn hf
      have h1 : f.state.stateName = "PROCESSING" :=
        stateName_eq_processing.mpr hf
      have h2 : 300 < e := by omega
      rw [wait_for_file_timeout_eq env a f e i h1 h2]
      exact ⟨rfl, by simp [isDeleteEvent]⟩
    | succ n ih =>
      intro f e i hn hf
      have h1 : f.state.stateName = "PROCESSING" :=
        stateName_eq_processing.mpr hf
      by_cases h2 : 300 < e
      · rw [wait_for_file_timeout_eq env a f e i h1 h2]
        exact ⟨rfl, by simp [isDeleteEvent]⟩
      · rw [wait_for_file_step_eq env a f e i FileState.processing h1 h2
          (hpoll i)]
        obtain ⟨w1, w2⟩ := ih { f with state := FileState.processing } (e + 15)
          (i + 1) (by omega) rfl
        exact ⟨w1, by simpa [List.filter_cons, isDeleteEvent] using w2⟩
  intro f e i
  exact aux (301 - e) f e i (Nat.le_refl _)

/-- The wait loop on a handle whose state is not PROCESSING and not
DELETED: it deletes exactly once when failing, never when succeeding,
and never lets an exception escape. -/
lemma wait_for_file_cleanup_nonproc (env : UploadEnv) (a : Nat)
    (f : RemoteFile) (e i : Nat) (hnp : f.state ≠ FileState.processing)
    (hnd : f.state ≠ FileState.deleted) :
    ((wait_for_file env a f e i).1 = WaitOutcome.failed →
      (wait_for_file env a f e i).2.filter isDeleteEvent =
        [REvent.delete_call f.name env.delete_raises]) ∧
    (∀ g, (wait_for_file env a f e i).1 = WaitOutcome.ok g →
      g.name = f.name ∧
      (wait_for_file env a f e i).2.filter isDeleteEvent = []) ∧
    (wait_for_file env a f e i).1 ≠ WaitOutcome.raised := by
  have h1 : ¬ f.state.stateName = "PROCESSING" :=
    fun h => hnp (stateName_eq_processing.mp h)
  by_cases h2 : f.state.stateName = "ACTIVE"
  · rw [wait_for_file_active_eq env a f e i h1 h2]
    refine ⟨?_, ?_, ?_⟩
    · intro hr
      cases hr
    · intro g hg
      cases hg
      exact ⟨rfl, rfl⟩
    · intro hr
      cases hr
  · have h3 : f.state.stateName ≠ "DELETED" :=
      fun h => hnd (stateName_eq_deleted.mp h)
    rw [wait_for_file_other_eq env a f e i h1 h2 h3]
    refine ⟨?_, ?_, ?_⟩
    · intro _
      simp [isDeleteEvent]
    · intro g hg
      cases hg
    · intro hr
      cases hr

/-- As long as no poll of this attempt raises and the remote never
reports DELETED on its own, the wait loop deletes the handle exactly
once when it fails, never deletes it when it succeeds (and the returned
handle keeps its name), and never lets an exception escape. -/
lemma wait_for_file_cleanup (env : UploadEnv) (a : Nat)
    (hnr : ∀ k, env.poll_result a k ≠ none)
    (hpoll : ∀ k, env.poll_result a k ≠ some FileState.deleted) :
    ∀ (f : RemoteFile) (e i : Nat), f.state ≠ FileState.deleted →
      ((wait_for_file env a f e i).1 = WaitOutcome.failed →
        (wait_for_file env a f e i).2.filter isDeleteEvent =
          [REvent.delete_call f.name env.delete_raises]) ∧
      (∀ g, (wait_for_file env a f e i).1 = WaitOutcome.ok g →
        g.name = f.name ∧
        (wait_for_file env a f e i).2.filter isDeleteEvent = []) ∧
      (wait_for_file env a f e i).1 ≠ WaitOutcome.raised := by
  have aux : ∀ (n : Nat) (f : RemoteFile) (e i : Nat), 301 - e ≤ n →
      f.state ≠ FileState.deleted →
      ((wait_for_file env a f e i).1 = WaitOutcome.failed →
        (wait_for_file env a f e i).2.filter isDeleteEvent =
          [REvent.delete_call f.name env.delete_raises]) ∧
      (∀ g, (wait_for_file env a f e i).1 = WaitOutcome.ok g →
        g.name = f.name ∧
        (wait_for_file env a f e i).2.filter isDeleteEvent = []) ∧
      (wait_for_file env a f e i).1 ≠ WaitOutcome.raised := by
    intro n
    induction n with
    | zero =>
      intro f e i hn hf
      by_cases hp : f.state = FileState.processing
      · have h1 : f.state.stateName = "PROCESSING" :=
          stateName_eq_processing.mpr hp
        have h2 : 300 < e := by omega
        rw [wait_for_file_timeout_eq env a f e i h1 h2]
        refine ⟨?_, ?_, ?_⟩
        · intro _
          simp [isDeleteEvent]
        · intro g hg
          cases hg
        · intro hr
          cases hr
      · exact wait_for_file_cleanup_nonproc env a f e i hp hf
    | succ n ih =>
      intro f e i hn hf
      by_cases hp : f.state = FileState.processing
      · have h1 : f.state.stateName = "PROCESSING" :=
          stateName_eq_processing.mpr hp
        by_cases h2 : 300 < e
        · rw [wait_for_file_timeout_eq env a f e i h1 h2]
          refine ⟨?_, ?_, ?_⟩
          · intro _
            simp [isDeleteEvent]
          · intro g hg
            cases hg
          · intro hr
            cases hr
        · cases hq : env.poll_result a i with
          | none => exact absurd hq (hnr i)
          | some st =>
            have hstd : st ≠ FileState.deleted := by
              intro hst
              exact hpoll i (by rw [hq, hst])
            rw [wait_for_file_step_eq env a f e i st h1 h2 hq]
            obtain ⟨w1, w2, w3⟩ := ih { f with state := st } (e + 15) (i + 1)
              (by omega) hstd
            refine ⟨?_, ?_, ?_⟩
            · intro hr
              simpa [List.filter_cons, isDeleteEvent] using w1 hr
            · intro g hg
              obtain ⟨n1, n2⟩ := w2 g hg
              exact ⟨n1, by simpa [List.filter_cons, isDeleteEvent] using n2⟩
            · exact w3
      · exact wait_for_file_cleanup_nonproc env a f e i hp hf
  intro f e i
  exact aux (301 - e) f e i (Nat.le_refl _)

/-- The wait loop never records an upload attempt. -/
lemma wait_for_file_no_attempt (env : UploadEnv) (a : Nat) :
    ∀ (f : RemoteFile) (e i : Nat),
      (wait_for_file env a f e i).2.filter isAttemptEvent = [] := by
  have aux : ∀ (n : Nat) (f : RemoteFile) (e i : Nat), 301 - e ≤ n →
      (wait_for_file env a f e i).2.filter isAttemptEvent = [] := by
    intro n
    induction n with
    | zero =>
      intro f e i hn
      by_cases hp : f.state.stateName = "PROCESSING"
      · have h2 : 300 < e := by omega
        rw [wait_for_file_timeout_eq env a f e i hp h2]
        simp [isAttemptEvent]
      · by_cases h2 : f.state.stateName = "ACTIVE"
        · rw [wait_for_file_active_eq env a f e i hp h2]
          rfl
        · by_cases h3 : f.state.stateName ≠ "DELETED"
          · rw [wait_for_file_other_eq env a f e i hp h2 h3]
            simp [isAttemptEvent]
          · rw [wait_for_file_deleted_eq env a f e i hp h2 h3]
            rfl
    | succ n ih =>
      intro f e i hn
      by_cases hp : f.state.stateName = "PROCESSING"
      · by_cases h2 : 300 < e
        · rw [wait_for_file_timeout_eq env a f e i hp h2]
          simp [isAttemptEvent]
        · cases hq : env.poll_result a i with
          | none =>
            rw [wait_for_file_raised_eq env a f e i hp h2 hq]
            simp [isAttemptEvent]
          | some st =>
            rw [wait_for_file_step_eq env a f e i st hp h2 hq]
            simpa [List.filter_cons, isAttemptEvent] using
              ih { f with state := st } (e + 15) (i + 1) (by omega)
      · by_cases h2 : f.state.stateName = "ACTIVE"
        · rw [wait_for_file_active_eq env a f e i hp h2]
          rfl
        · by_cases h3 : f.state.stateName ≠ "DELETED"
          · rw [wait_for_file_other_eq env a f e i hp h2 h3]
            simp [isAttemptEvent]
          · rw [wait_for_file_deleted_eq env a f e i hp h2 h3]
            rfl
  intro f e i
  exact aux (301 - e) f e i (Nat.le_refl _)

lemma upload_loop_ok_eq (env : UploadEnv) (r d a : Nat) (f g : RemoteFile)
    (ha : a < r) (hf : env.upload_result a = some f)
    (hw : (wait_for_file env a f 0 0).1 = WaitOutcome.ok g) :
    upload_loop env r d a =
      (some g,
       REvent.upload_attempt :: (wait_for_file env a f 0 0).2) := by
  rw [upload_loop.eq_def, dif_pos ha]
  simp only [hf, hw]

lemma upload_loop_failed_eq (env : UploadEnv) (r d a : Nat) (f : RemoteFile)
    (ha : a < r) (hf : env.upload_result a = some f)
    (hw : (wait_for_file env a f 0 0).1 = WaitOutcome.failed) :
    upload_loop env r d a =
      (none,
       REvent.upload_attempt :: (wait_for_file env a f 0 0).2) := by
  rw [upload_loop.eq_def, dif_pos ha]
  simp only [hf, hw]

lemma upload_loop_raised_retry_eq (env : UploadEnv) (r d a : Nat)
    (f : RemoteFile)
    (ha : a < r) (hf : env.upload_result a = some f)
    (hw : (wait_for_file env a f 0 0).1 = WaitOutcome.raised)
    (ha2 : a + 1 < r) :
    upload_loop env r d a =
      ((upload_loop env r d (a + 1)).1,
       REvent.upload_attempt :: (wait_for_file env a f 0 0).2 ++
         REvent.sleep d :: (upload_loop env r d (a + 1)).2) := by
  rw [upload_loop.eq_def, dif_pos ha]
  simp only [hf, hw, if_pos ha2]

lemma upload_loop_raised_exhaust_eq (env : UploadEnv) (r d a : Nat)
    (f : RemoteFile)
    (ha : a < r) (hf : env.upload_result a = some f)
    (hw : (wait_for_file env a f 0 0).1 = WaitOutcome.raised)
    (ha2 : ¬ a + 1 < r) :
    upload_loop env r d a =
      (none,
       REvent.upload_attempt :: (wait_for_file env a f 0 0).2) := by
  rw [upload_loop.eq_def, dif_pos ha]
  simp only [hf, hw, if_neg ha2]

lemma upload_loop_retry_eq (env : UploadEnv) (r d a : Nat)
    (ha : a < r) (hf : env.upload_result a = none) (ha2 : a + 1 < r) :
    upload_loop env r d a =
      ((upload_loop env r d (a + 1)).1,
       REvent.upload_attempt :: REvent.sleep d ::
         (upload_loop env r d (a + 1)).2) := by
  rw [upload_loop.eq_def, dif_pos ha]
  simp only [hf, if_pos ha2]

lemma upload_loop_exhaust_eq (env : UploadEnv) (r d a : Nat)
    (ha : a < r) (hf : env.upload_result a = none) (ha2 : ¬ a + 1 < r) :
    upload_loop env r d a = (none, [REvent.upload_attempt]) := by
  rw [upload_loop.eq_def, dif_pos ha]
  simp only [hf, if_neg ha2]

lemma upload_loop_done_eq (env : UploadEnv) (r d a : Nat) (ha : ¬ a < r) :
    upload_loop env r d a = (none, []) := by
  rw [upload_loop.eq_def, dif_neg ha]

lemma upload_file_to_gemini_eq (env : UploadEnv) :
    upload_file_to_gemini env true 3 5 = upload_loop env 3 5 0 := by
  simp [upload_file_to_gemini]
/-- The retry loop records at most `retries - attempt` upload attempts. -/
lemma upload_loop_attempts_le (env : UploadEnv) :
    ∀ a, ((upload_loop env 3 5 a).2.filter isAttemptEvent).length ≤ 3 - a := by
  have aux : ∀ (n : Nat) (a : Nat), 3 - a ≤ n →
      ((upload_loop env 3 5 a).2.filter isAttemptEvent).length ≤ 3 - a := by
    intro n
    induction n with
    | zero =>
      intro a hn
      have ha : ¬ a < 3 := by omega
      rw [upload_loop_done_eq env 3 5 a ha]
      simp
    | succ n ih =>
      intro a hn
      by_cases ha : a < 3
      · cases hr : env.upload_result a with
        | some f =>
          rcases hw : (wait_for_file env a f 0 0).1 with g | _ | _
          · rw [upload_loop_ok_eq env 3 5 a f g ha hr hw]
            simp [List.filter_cons, isAttemptEvent,
              wait_for_file_no_attempt env a f 0 0]
            omega
          · rw [upload_loop_failed_eq env 3 5 a f ha hr hw]
            simp [List.filter_cons, isAttemptEvent,
              wait_for_file_no_attempt env a f 0 0]
            omega
          · by_cases ha2 : a + 1 < 3
            · rw [upload_loop_raised_retry_eq env 3 5 a f ha hr hw ha2]
              have := ih (a + 1) (by omega)
              simp only [List.filter_cons, List.filter_append,
                isAttemptEvent, List.length_cons, List.length_append,
                wait_for_file_no_attempt env a f 0 0] at *
              simp
              omega
            · rw [upload_loop_raised_exhaust_eq env 3 5 a f ha hr hw ha2]
              simp [List.filter_cons, isAttemptEvent,
                wait_for_file_no_attempt env a f 0 0]
              omega
        | none =>
          by_cases ha2 : a + 1 < 3
          · rw [upload_loop_retry_eq env 3 5 a ha hr ha2]
            have := ih (a + 1) (by omega)
            simp only [List.filter_cons, isAttemptEvent,
              List.length_cons] at *
            simp
            omega
          · rw [upload_loop_exhaust_eq env 3 5 a ha hr ha2]
            simp [isAttemptEvent]
            omega
      · rw [upload_loop_done_eq env 3 5 a ha]
        simp
  intro a
  exact aux (3 - a) a (Nat.le_refl _)

/-- Claim C4: the upload operation attempts the remote upload call at most
3 times; when all 3 attempts raise, it fails having attempted exactly 3
times with the 5-second inter-attempt sleep between attempts; when 2
attempts raise and the third succeeds with an ACTIVE file, it succeeds
having attempted exactly 3 times. -/
theorem claim_C4_upload_retries (env : UploadEnv) (f : RemoteFile) :
    ((upload_file_to_gemini env true 3 5).2.filter isAttemptEvent).length
        ≤ 3 ∧
    (env.upload_result 0 = none → env.upload_result 1 = none →
      env.upload_result 2 = none →
      upload_file_to_gemini env true 3 5 =
        (none, [REvent.upload_attempt, REvent.sleep 5, REvent.upload_attempt,
                REvent.sleep 5, REvent.upload_attempt])) ∧
    (env.upload_result 0 = none → env.upload_result 1 = none →
      env.upload_result 2 = some f → f.state = FileState.active →
      upload_file_to_gemini env true 3 5 =
        (some f, [REvent.upload_attempt, REvent.sleep 5, REvent.upload_attempt,
                  REvent.sleep 5, REvent.upload_attempt])) := by
  refine ⟨?_, ?_, ?_⟩
  · rw [upload_file_to_gemini_eq]
    have := upload_loop_attempts_le env 0
    omega
  · intro h0 h1 h2
    rw [upload_file_to_gemini_eq,
      upload_loop_retry_eq env 3 5 0 (by omega) h0 (by omega),
      upload_loop_retry_eq env 3 5 1 (by omega) h1 (by omega),
      upload_loop_exhaust_eq env 3 5 2 (by omega) h2 (by omega)]
  · intro h0 h1 h2 hst
    have hwa : wait_for_file env 2 f 0 0 = (WaitOutcome.ok f, []) := by
      refine wait_for_file_active_eq env 2 f 0 0 ?_ ?_
      · rw [hst]
        decide
      · rw [hst]
        rfl
    rw [upload_file_to_gemini_eq,
      upload_loop_retry_eq env 3 5 0 (by omega) h0 (by omega),
      upload_loop_retry_eq env 3 5 1 (by omega) h1 (by omega),
      upload_loop_ok_eq env 3 5 2 f f (by omega) h2 (by rw [hwa]), hwa]

theorem claim_C4_witness :
    upload_file_to_gemini
        { upload_result := fun n =>
            if n < 2 then none
            else some { name := "files/x", display_name := "doc.pdf",
                        state := FileState.active },
          poll_result := fun _ _ => some FileState.active,
          delete_raises := false }
        true 3 5 =
      (some { name := "files/x", display_name := "doc.pdf",
              state := FileState.active },
       [REvent.upload_attempt, REvent.sleep 5, REvent.upload_attempt,
        REvent.sleep 5, REvent.upload_attempt]) :=
  (claim_C4_upload_retries _ _).2.2 rfl rfl rfl rfl

/-- Claim C5: if the uploaded file stays in PROCESSING at every poll past
the 300-second timeout, the upload operation issues exactly one delete
call for the handle and returns a failure; this holds for either value of
the delete-raises flag, so a failing delete is not propagated. -/
theorem claim_C5_processing_timeout_cleanup (env : UploadEnv)
    (f : RemoteFile) (h0 : env.upload_result 0 = some f)
    (hst : f.state = FileState.processing)
    (hpoll : ∀ k, env.poll_result 0 k = some FileState.processing) :
    (upload_file_to_gemini env true 3 5).1 = none ∧
    (upload_file_to_gemini env true 3 5).2.filter isDeleteEvent =
      [REvent.delete_call f.name env.delete_raises] := by
  obtain ⟨w1, w2⟩ := wait_for_file_always_processing env 0 hpoll f 0 0 hst
  rw [upload_file_to_gemini_eq,
    upload_loop_failed_eq env 3 5 0 f (by omega) h0 w1]
  exact ⟨rfl, by simpa [List.filter_cons, isDeleteEvent] using w2⟩

theorem claim_C5_witness :
    (upload_file_to_gemini
        { upload_result := fun _ =>
            some { name := "files/p", display_name := "doc.pdf",
                   state := FileState.processing },
          poll_result := fun _ _ => some FileState.processing,
          delete_raises := true }
        true 3 5).1 = none ∧
    (upload_file_to_gemini
        { upload_result := fun _ =>
            some { name := "files/p", display_name := "doc.pdf",
                   state := FileState.processing },
          poll_result := fun _ _ => some FileState.processing,
          delete_raises := true }
        true 3 5).2.filter isDeleteEvent =
      [REvent.delete_call "files/p" true] :=
  claim_C5_processing_timeout_cleanup _ _ rfl rfl (fun _ => rfl)

/-- If the first successful upload call happens at attempt `k`, then
either the subsequent polling raised (and the loop moved on to another
attempt), or the whole upload operation returns the wait-loop outcome
and its delete calls are exactly those of the wait loop. -/
lemma upload_first_success (env : UploadEnv) (f : RemoteFile) (k : Nat)
    (hk : k < 3) (hfail : ∀ j, j < k → env.upload_result j = none)
    (hsucc : env.upload_result k = some f) :
    (wait_for_file env k f 0 0).1 = WaitOutcome.raised ∨
    ((upload_file_to_gemini env true 3 5).1 =
        (match (wait_for_file env k f 0 0).1 with
         | WaitOutcome.ok g => some g
         | _ => none) ∧
     (upload_file_to_gemini env true 3 5).2.filter isDeleteEvent =
       (wait_for_file env k f 0 0).2.filter isDeleteEvent) := by
  rcases hw : (wait_for_file env k f 0 0).1 with g | _ | _
  · right
    interval_cases k
    · rw [upload_file_to_gemini_eq,
        upload_loop_ok_eq env 3 5 0 f g (by omega) hsucc hw]
      exact ⟨rfl, by simp [List.filter_cons, isDeleteEvent]⟩
    · rw [upload_file_to_gemini_eq,
        upload_loop_retry_eq env 3 5 0 (by omega) (hfail 0 (by omega))
          (by omega),
        upload_loop_ok_eq env 3 5 1 f g (by omega) hsucc hw]
      exact ⟨rfl, by simp [List.filter_cons, isDeleteEvent]⟩
    · rw [upload_file_to_gemini_eq,
        upload_loop_retry_eq env 3 5 0 (by omega) (hfail 0 (by omega))
          (by omega),
        upload_loop_retry_eq env 3 5 1 (by omega) (hfail 1 (by omega))
          (by omega),
        upload_loop_ok_eq env 3 5 2 f g (by omega) hsucc hw]
      exact ⟨rfl, by simp [List.filter_cons, isDeleteEvent]⟩
  · right
    interval_cases k
    · rw [upload_file_to_gemini_eq,
        upload_loop_failed_eq env 3 5 0 f (by omega) hsucc hw]
      exact ⟨rfl, by simp [List.filter_cons, isDeleteEvent]⟩
    · rw [upload_file_to_gemini_eq,
        upload_loop_retry_eq env 3 5 0 (by omega) (hfail 0 (by omega))
          (by omega),
        upload_loop_failed_eq env 3 5 1 f (by omega) hsucc hw]
      exact ⟨rfl, by simp [List.filter_cons, isDeleteEvent]⟩
    · rw [upload_file_to_gemini_eq,
        upload_loop_retry_eq env 3 5 0 (by omega) (hfail 0 (by omega))
          (by omega),
        upload_loop_retry_eq env 3 5 1 (by omega) (hfail 1 (by omega))
          (by omega),
        upload_loop_failed_eq env 3 5 2 f (by omega) hsucc hw]
      exact ⟨rfl, by simp [List.filter_cons, isDeleteEvent]⟩
  · exact Or.inl rfl

/-- The analysis step always issues exactly one delete call for the
(nonempty-named) handle, on success and on failure alike. -/
lemma analyze_document_delete (genv : GenEnv) (f : RemoteFile)
    (extract_mode language : String) (hname : f.name ≠ "") :
    (analyze_document genv f extract_mode language).2 =
      [REvent.delete_call f.name genv.delete_raises] := by
  cases hr : genv.gen_result (build_prompt f.display_name language
      extract_mode) with
  | error e => simp [analyze_document, hr, hname]
  | ok resp =>
    by_cases ht : resp.has_text = false <;>
      simp [analyze_document, hr, hname, ht]
/-- Claim C1 (amended): provided no status-poll call raises, a handle
returned by a successful upload call is the target of exactly one delete
call before the pipeline returns: the whole pipeline trace contains
exactly one delete event, and it names the uploaded handle. -/
theorem claim_C1_handle_deleted_exactly_once (uenv : UploadEnv)
    (genv : GenEnv) (extract_mode language : String) (k : Nat)
    (f : RemoteFile) (hk : k < 3)
    (hfail : ∀ j, j < k → uenv.upload_result j = none)
    (hsucc : uenv.upload_result k = some f)
    (hname : f.name ≠ "") (hstate : f.state ≠ FileState.deleted)
    (hnr : ∀ a j, uenv.poll_result a j ≠ none)
    (hpoll : ∀ a j, uenv.poll_result a j ≠ some FileState.deleted) :
    ∃ b, (run_pipeline uenv genv true extract_mode language).2.filter
        isDeleteEvent = [REvent.delete_call f.name b] := by
  obtain ⟨c1, c2, c3⟩ :=
    wait_for_file_cleanup uenv k (hnr k) (hpoll k) f 0 0 hstate
  rcases upload_first_success uenv f k hk hfail hsucc with hr | ⟨h1, h2⟩
  · exact absurd hr c3
  · rcases hw : (wait_for_file uenv k f 0 0).1 with g | _ | _
    · refine ⟨genv.delete_raises, ?_⟩
      obtain ⟨n1, n2⟩ := c2 g hw
      have h1b : (upload_file_to_gemini uenv true 3 5).1 = some g := by
        rw [h1, hw]
      rcases hU : upload_file_to_gemini uenv true 3 5 with ⟨r1, tr⟩
      rw [hU] at h1b h2
      simp only at h1b h2
      subst h1b
      have hpipe : run_pipeline uenv genv true extract_mode language =
          ((analyze_document genv g extract_mode language).1,
           tr ++ (analyze_document genv g extract_mode language).2) := by
        simp [run_pipeline, hU]
      rw [hpipe, List.filter_append, h2, n2,
        analyze_document_delete genv g extract_mode language
          (by rw [n1]; exact hname), n1]
      rfl
    · refine ⟨uenv.delete_raises, ?_⟩
      have hdel := c1 hw
      have h1b : (upload_file_to_gemini uenv true 3 5).1 = none := by
        rw [h1, hw]
      rcases hU : upload_file_to_gemini uenv true 3 5 with ⟨r1, tr⟩
      rw [hU] at h1b h2
      simp only at h1b h2
      subst h1b
      have hpipe : run_pipeline uenv genv true extract_mode language =
          ((none, none), tr) := by
        simp [run_pipeline, hU]
      rw [hpipe, h2, hdel]
    · exact absurd hw c3

theorem claim_C1_witness :
    ∃ b, (run_pipeline
        { upload_result := fun _ =>
            some { name := "files/x", display_name := "doc.pdf",
                   state := FileState.active },
          poll_result := fun _ _ => some FileState.active,
          delete_raises := false }
        { gen_result := fun _ => Except.ok { has_text := true, text := "hello" },
          delete_raises := false }
        true "full" "english").2.filter isDeleteEvent =
      [REvent.delete_call "files/x" b] :=
  claim_C1_handle_deleted_exactly_once
    { upload_result := fun _ =>
        some { name := "files/x", display_name := "doc.pdf",
               state := FileState.active },
      poll_result := fun _ _ => some FileState.active,
      delete_raises := false }
    { gen_result := fun _ => Except.ok { has_text := true, text := "hello" },
      delete_raises := false }
    "full" "english" 0
    { name := "files/x", display_name := "doc.pdf",
      state := FileState.active }
    (by omega) (fun j hj => absurd hj (Nat.not_lt_zero j)) rfl
    (by decide) (by decide)
    (fun _ _ h => Option.noConfusion h)
    (fun _ _ h => FileState.noConfusion (Option.some.inj h))

/-- When the first poll of a successfully uploaded, still-PROCESSING file
raises and every later upload attempt raises as well, the pipeline
finishes without issuing a single delete call: the uploaded handle is
abandoned on the remote service. -/
lemma pipeline_poll_raise_leak (uenv : UploadEnv) (genv : GenEnv)
    (f : RemoteFile) (extract_mode language : String)
    (h0 : uenv.upload_result 0 = some f)
    (h1 : uenv.upload_result 1 = none)
    (h2 : uenv.upload_result 2 = none)
    (hst : f.state = FileState.processing)
    (hp : uenv.poll_result 0 0 = none) :
    (run_pipeline uenv genv true extract_mode language).2.filter
      isDeleteEvent = [] := by
  have hw : wait_for_file uenv 0 f 0 0 =
      (WaitOutcome.raised, [REvent.sleep 15, REvent.get_file]) :=
    wait_for_file_raised_eq uenv 0 f 0 0 (stateName_eq_processing.mpr hst)
      (by omega) hp
  have l2 : upload_loop uenv 3 5 2 = (none, [REvent.upload_attempt]) :=
    upload_loop_exhaust_eq uenv 3 5 2 (by omega) h2 (by omega)
  have l1 : upload_loop uenv 3 5 1 =
      (none, [REvent.upload_attempt, REvent.sleep 5,
              REvent.upload_attempt]) := by
    rw [upload_loop_retry_eq uenv 3 5 1 (by omega) h1 (by omega), l2]
  have l0 : upload_loop uenv 3 5 0 =
      (none, [REvent.upload_attempt, REvent.sleep 15, REvent.get_file,
              REvent.sleep 5, REvent.upload_attempt, REvent.sleep 5,
              REvent.upload_attempt]) := by
    rw [upload_loop_raised_retry_eq uenv 3 5 0 f (by omega) h0
        (by rw [hw]) (by omega), hw, l1]
    rfl
  have hU : upload_file_to_gemini uenv true 3 5 =
      (none, [REvent.upload_attempt, REvent.sleep 15, REvent.get_file,
              REvent.sleep 5, REvent.upload_attempt, REvent.sleep 5,
              REvent.upload_attempt]) := by
    rw [upload_file_to_gemini_eq, l0]
  have hpipe : run_pipeline uenv genv true extract_mode language =
      ((none, none),
       [REvent.upload_attempt, REvent.sleep 15, REvent.get_file,
        REvent.sleep 5, REvent.upload_attempt, REvent.sleep 5,
        REvent.upload_attempt]) := by
    simp [run_pipeline, hU]
  rw [hpipe]
  rfl

/-- Claim C1 counterexample: the handle named files/p is uploaded
successfully by the first upload call, but its first status poll raises;
the `except` at line 85 catches the exception and retries the upload
from scratch, so the pipeline returns with zero delete calls issued —
the successfully uploaded handle is never deleted, refuting the claim
that every execution path deletes it exactly once. -/
theorem claim_C1_counterexample :
    (({ upload_result := fun n =>
          if n = 0 then
            some { name := "files/p", display_name := "doc.pdf",
                   state := FileState.processing }
          else none,
        poll_result := fun _ _ => none,
        delete_raises := false } : UploadEnv).upload_result 0 =
      some { name := "files/p", display_name := "doc.pdf",
             state := FileState.processing }) ∧
    (run_pipeline
        { upload_result := fun n =>
            if n = 0 then
              some { name := "files/p", display_name := "doc.pdf",
                     state := FileState.processing }
            else none,
          poll_result := fun _ _ => none,
          delete_raises := false }
        { gen_result := fun _ =>
            Except.ok { has_text := true, text := "hi" },
          delete_raises := false }
        true "full" "english").2.filter isDeleteEvent = [] :=
  ⟨rfl,
   pipeline_poll_raise_leak
     { upload_result := fun n =>
         if n = 0 then
           some { name := "files/p", display_name := "doc.pdf",
                  state := FileState.processing }
         else none,
       poll_result := fun _ _ => none,
       delete_raises := false }
     { gen_result := fun _ =>
         Except.ok { has_text := true, text := "hi" },
       delete_raises := false }
     { name := "files/p", display_name := "doc.pdf",
       state := FileState.processing }
     "full" "english" rfl rfl rfl rfl rfl⟩
/-! ## Prompt claims -/

lemma countOccur_assembled (pat display tail : List Char)
    (hp : pat ≠ []) (h1 : '(' ∉ pat) (h2 : ')' ∉ pat) :
    countOccur pat (prompt_head ++ '(' :: (display ++ ')' :: tail)) =
      countOccur pat prompt_head + countOccur pat display +
        countOccur pat tail := by
  rw [countOccur_append_sep pat '(' prompt_head (display ++ ')' :: tail) hp h1,
      countOccur_append_sep pat ')' display tail hp h2]
  omega

lemma findFirstIdx_assembled (pat display tail : List Char)
    (hp : pat ≠ []) (h1 : '(' ∉ pat) (h2 : ')' ∉ pat)
    (hh : countOccur pat prompt_head = 0)
    (hd : countOccur pat display = 0) :
    findFirstIdx pat (prompt_head ++ '(' :: (display ++ ')' :: tail)) =
      (findFirstIdx pat tail).map
        (fun x => x + (display.length + 1) + (prompt_head.length + 1)) := by
  rw [findFirstIdx_append_sep pat '(' (display ++ ')' :: tail) hp h1
        prompt_head hh,
      findFirstIdx_append_sep pat ')' tail hp h2 display hd]
  cases findFirstIdx pat tail with
  | none => rfl
  | some v => simp

lemma build_prompt_full_eq (display_name language : String) :
    build_prompt display_name language "full" =
      prompt_head ++ '(' :: (display_name.toList ++ ')' ::
        full_prompt_tail language) := by
  unfold build_prompt
  rw [if_neg (by decide : ¬ (("full" : String) = "summary"))]

lemma build_prompt_summary_eq (display_name language : String) :
    build_prompt display_name language "summary" =
      prompt_head ++ '(' :: (display_name.toList ++ ')' ::
        summary_prompt_tail language) := by
  unfold build_prompt
  rw [if_pos (rfl : ("summary" : String) = "summary")]

lemma countOccur_tail_summary (pat : List Char) (language : String)
    (hp : pat ≠ []) (hnl : '\n' ∉ pat) :
    countOccur pat (summary_prompt_tail language) =
      countOccur pat (summary_prompt_head language) +
        countOccur pat prompt_output_format_summary := by
  unfold summary_prompt_tail
  exact countOccur_append_sep pat '\n'
    (summary_prompt_head language) prompt_output_format_summary hp hnl

lemma countOccur_tail_full (pat : List Char) (language : String)
    (hp : pat ≠ []) (hnl : '\n' ∉ pat) :
    countOccur pat (full_prompt_tail language) =
      countOccur pat (full_prompt_head language) +
        countOccur pat prompt_output_format_full := by
  unfold full_prompt_tail
  exact countOccur_append_sep pat '\n'
    (full_prompt_head language) prompt_output_format_full hp hnl

lemma findFirstIdx_tail_summary (pat : List Char) (language : String)
    (hp : pat ≠ []) (hnl : '\n' ∉ pat)
    (hh : countOccur pat (summary_prompt_head language) = 0) :
    findFirstIdx pat (summary_prompt_tail language) =
      (findFirstIdx pat prompt_output_format_summary).map
        (· + ((summary_prompt_head language).length + 1)) := by
  unfold summary_prompt_tail
  exact findFirstIdx_append_sep pat '\n' prompt_output_format_summary hp hnl
    (summary_prompt_head language) hh

set_option maxRecDepth 20000 in
lemma prompt_counts_full_arabic (display_name : String)
    (hd1 : countOccur TEXT_START_CHARS display_name.toList = 0)
    (hd2 : countOccur TEXT_END_CHARS display_name.toList = 0) :
    countOccur TEXT_START_CHARS (build_prompt display_name "arabic" "full")
        = 1 ∧
    countOccur TEXT_END_CHARS (build_prompt display_name "arabic" "full")
        = 1 := by
  constructor
  · rw [build_prompt_full_eq,
      countOccur_assembled _ _ _ (by decide) (by decide) (by decide), hd1,
      countOccur_tail_full _ _ (by decide) (by decide)]
    decide
  · rw [build_prompt_full_eq,
      countOccur_assembled _ _ _ (by decide) (by decide) (by decide), hd2,
      countOccur_tail_full _ _ (by decide) (by decide)]
    decide

set_option maxRecDepth 20000 in
lemma prompt_counts_full_english (display_name : String)
    (hd1 : countOccur TEXT_START_CHARS display_name.toList = 0)
    (hd2 : countOccur TEXT_END_CHARS display_name.toList = 0) :
    countOccur TEXT_START_CHARS (build_prompt display_name "english" "full")
        = 1 ∧
    countOccur TEXT_END_CHARS (build_prompt display_name "english" "full")
        = 1 := by
  constructor
  · rw [build_prompt_full_eq,
      countOccur_assembled _ _ _ (by decide) (by decide) (by decide), hd1,
      countOccur_tail_full _ _ (by decide) (by decide)]
    decide
  · rw [build_prompt_full_eq,
      countOccur_assembled _ _ _ (by decide) (by decide) (by decide), hd2,
      countOccur_tail_full _ _ (by decide) (by decide)]
    decide

set_option maxRecDepth 20000 in
lemma prompt_counts_summary_arabic (display_name : String)
    (hd1 : countOccur TEXT_START_CHARS display_name.toList = 0)
    (hd2 : countOccur TEXT_END_CHARS display_name.toList = 0)
    (hd3 : countOccur SUMMARY_START_CHARS display_name.toList = 0)
    (hd4 : countOccur SUMMARY_END_CHARS display_name.toList = 0) :
    countOccur TEXT_START_CHARS (build_prompt display_name "arabic" "summary")
        = 1 ∧
    countOccur TEXT_END_CHARS (build_prompt display_name "arabic" "summary")
        = 1 ∧
    countOccur SUMMARY_START_CHARS
        (build_prompt display_name "arabic" "summary") = 1 ∧
    countOccur SUMMARY_END_CHARS
        (build_prompt display_name "arabic" "summary") = 1 := by
  refine ⟨?_, ?_, ?_, ?_⟩
  · rw [build_prompt_summary_eq,
      countOccur_assembled _ _ _ (by decide) (by decide) (by decide), hd1,
      countOccur_tail_summary _ _ (by decide) (by decide)]
    decide
  · rw [build_prompt_summary_eq,
      countOccur_assembled _ _ _ (by decide) (by decide) (by decide), hd2,
      countOccur_tail_summary _ _ (by decide) (by decide)]
    decide
  · rw [build_prompt_summary_eq,
      countOccur_assembled _ _ _ (by decide) (by decide) (by decide), hd3,
      countOccur_tail_summary _ _ (by decide) (by decide)]
    decide
  · rw [build_prompt_summary_eq,
      countOccur_assembled _ _ _ (by decide) (by decide) (by decide), hd4,
      countOccur_tail_summary _ _ (by decide) (by decide)]
    decide

set_option maxRecDepth 20000 in
lemma prompt_counts_summary_english (display_name : String)
    (hd1 : countOccur TEXT_START_CHARS display_name.toList = 0)
    (hd2 : countOccur TEXT_END_CHARS display_name.toList = 0)
    (hd3 : countOccur SUMMARY_START_CHARS display_name.toList = 0)
    (hd4 : countOccur SUMMARY_END_CHARS display_name.toList = 0) :
    countOccur TEXT_START_CHARS (build_prompt display_name "english" "summary")
        = 1 ∧
    countOccur TEXT_END_CHARS (build_prompt display_name "english" "summary")
        = 1 ∧
    countOccur SUMMARY_START_CHARS
        (build_prompt display_name "english" "summary") = 1 ∧
    countOccur SUMMARY_END_CHARS
        (build_prompt display_name "english" "summary") = 1 := by
  refine ⟨?_, ?_, ?_, ?_⟩
  · rw [build_prompt_summary_eq,
      countOccur_assembled _ _ _ (by decide) (by decide) (by decide), hd1,
      countOccur_tail_summary _ _ (by decide) (by decide)]
    decide
  · rw [build_prompt_summary_eq,
      countOccur_assembled _ _ _ (by decide) (by decide) (by decide), hd2,
      countOccur_tail_summary _ _ (by decide) (by decide)]
    decide
  · rw [build_prompt_summary_eq,
      countOccur_assembled _ _ _ (by decide) (by decide) (by decide), hd3,
      countOccur_tail_summary _ _ (by decide) (by decide)]
    decide
  · rw [build_prompt_summary_eq,
      countOccur_assembled _ _ _ (by decide) (by decide) (by decide), hd4,
      countOccur_tail_summary _ _ (by decide) (by decide)]
    decide
set_option maxRecDepth 20000 in
lemma prompt_idx_summary_arabic (display_name : String)
    (hd1 : countOccur TEXT_START_CHARS display_name.toList = 0)
    (hd2 : countOccur TEXT_END_CHARS display_name.toList = 0)
    (hd3 : countOccur SUMMARY_START_CHARS display_name.toList = 0)
    (hd4 : countOccur SUMMARY_END_CHARS display_name.toList = 0) :
    ∃ a b c d,
      findFirstIdx SUMMARY_START_CHARS
          (build_prompt display_name "arabic" "summary") = some a ∧
      findFirstIdx SUMMARY_END_CHARS
          (build_prompt display_name "arabic" "summary") = some b ∧
      findFirstIdx TEXT_START_CHARS
          (build_prompt display_name "arabic" "summary") = some c ∧
      findFirstIdx TEXT_END_CHARS
          (build_prompt display_name "arabic" "summary") = some d ∧
      a < b ∧ b < c ∧ c < d := by
  refine ⟨71 + ((summary_prompt_head "arabic").length + 1)
      + (display_name.toList.length + 1) + (prompt_head.length + 1),
    125 + ((summary_prompt_head "arabic").length + 1)
      + (display_name.toList.length + 1) + (prompt_head.length + 1),
    149 + ((summary_prompt_head "arabic").length + 1)
      + (display_name.toList.length + 1) + (prompt_head.length + 1),
    208 + ((summary_prompt_head "arabic").length + 1)
      + (display_name.toList.length + 1) + (prompt_head.length + 1),
    ?_, ?_, ?_, ?_, by omega, by omega, by omega⟩
  · rw [build_prompt_summary_eq,
      findFirstIdx_assembled _ _ _ (by decide) (by decide) (by decide)
        (by decide) hd3,
      findFirstIdx_tail_summary _ _ (by decide) (by decide) (by decide),
      show findFirstIdx SUMMARY_START_CHARS prompt_output_format_summary
          = some 71 from by decide]
    rfl
  · rw [build_prompt_summary_eq,
      findFirstIdx_assembled _ _ _ (by decide) (by decide) (by decide)
        (by decide) hd4,
      findFirstIdx_tail_summary _ _ (by decide) (by decide) (by decide),
      show findFirstIdx SUMMARY_END_CHARS prompt_output_format_summary
          = some 125 from by decide]
    rfl
  · rw [build_prompt_summary_eq,
      findFirstIdx_assembled _ _ _ (by decide) (by decide) (by decide)
        (by decide) hd1,
      findFirstIdx_tail_summary _ _ (by decide) (by decide) (by decide),
      show findFirstIdx TEXT_START_CHARS prompt_output_format_summary
          = some 149 from by decide]
    rfl
  · rw [build_prompt_summary_eq,
      findFirstIdx_assembled _ _ _ (by decide) (by decide) (by decide)
        (by decide) hd2,
      findFirstIdx_tail_summary _ _ (by decide) (by decide) (by decide),
      show findFirstIdx TEXT_END_CHARS prompt_output_format_summary
          = some 208 from by decide]
    rfl

set_option maxRecDepth 20000 in
lemma prompt_idx_summary_english (display_name : String)
    (hd1 : countOccur TEXT_START_CHARS display_name.toList = 0)
    (hd2 : countOccur TEXT_END_CHARS display_name.toList = 0)
    (hd3 : countOccur SUMMARY_START_CHARS display_name.toList = 0)
    (hd4 : countOccur SUMMARY_END_CHARS display_name.toList = 0) :
    ∃ a b c d,
      findFirstIdx SUMMARY_START_CHARS
          (build_prompt display_name "english" "summary") = some a ∧
      findFirstIdx SUMMARY_END_CHARS
          (build_prompt display_name "english" "summary") = some b ∧
      findFirstIdx TEXT_START_CHARS
          (build_prompt display_name "english" "summary") = some c ∧
      findFirstIdx TEXT_END_CHARS
          (build_prompt display_name "english" "summary") = some d ∧
      a < b ∧ b < c ∧ c < d := by
  refine ⟨71 + ((summary_prompt_head "english").length + 1)
      + (display_name.toList.length + 1) + (prompt_head.length + 1),
    125 + ((summary_prompt_head "english").length + 1)
      + (display_name.toList.length + 1) + (prompt_head.length + 1),
    149 + ((summary_prompt_head "english").length + 1)
      + (display_name.toList.length + 1) + (prompt_head.length + 1),
    208 + ((summary_prompt_head "english").length + 1)
      + (display_name.toList.length + 1) + (prompt_head.length + 1),
    ?_, ?_, ?_, ?_, by omega, by omega, by omega⟩
  · rw [build_prompt_summary_eq,
      findFirstIdx_assembled _ _ _ (by decide) (by decide) (by decide)
        (by decide) hd3,
      findFirstIdx_tail_summary _ _ (by decide) (by decide) (by decide),
      show findFirstIdx SUMMARY_START_CHARS prompt_output_format_summary
          = some 71 from by decide]
    rfl
  · rw [build_prompt_summary_eq,
      findFirstIdx_assembled _ _ _ (by decide) (by decide) (by decide)
        (by decide) hd4,
      findFirstIdx_tail_summary _ _ (by decide) (by decide) (by decide),
      show findFirstIdx SUMMARY_END_CHARS prompt_output_format_summary
          = some 125 from by decide]
    rfl
  · rw [build_prompt_summary_eq,
      findFirstIdx_assembled _ _ _ (by decide) (by decide) (by decide)
        (by decide) hd1,
      findFirstIdx_tail_summary _ _ (by decide) (by decide) (by decide),
      show findFirstIdx TEXT_START_CHARS prompt_output_format_summary
          = some 149 from by decide]
    rfl
  · rw [build_prompt_summary_eq,
      findFirstIdx_assembled _ _ _ (by decide) (by decide) (by decide)
        (by decide) hd2,
      findFirstIdx_tail_summary _ _ (by decide) (by decide) (by decide),
      show findFirstIdx TEXT_END_CHARS prompt_output_format_summary
          = some 208 from by decide]
    rfl

/-- Claim C6: for every valid (mode, language) pair (and any display name
not itself containing a marker), the generated prompt contains exactly
one occurrence of the text start and text end markers, and in SUMMARY
mode additionally exactly one occurrence of each summary marker, with
the summary marker pair occurring before the text marker pair. -/
theorem claim_C6_prompt_markers (display_name language extract_mode : String)
    (hlang : language = "arabic" ∨ language = "english")
    (hmode : extract_mode = "full" ∨ extract_mode = "summary")
    (hd1 : countOccur TEXT_START_CHARS display_name.toList = 0)
    (hd2 : countOccur TEXT_END_CHARS display_name.toList = 0)
    (hd3 : countOccur SUMMARY_START_CHARS display_name.toList = 0)
    (hd4 : countOccur SUMMARY_END_CHARS display_name.toList = 0) :
    countOccur TEXT_START_CHARS
        (build_prompt display_name language extract_mode) = 1 ∧
    countOccur TEXT_END_CHARS
        (build_prompt display_name language extract_mode) = 1 ∧
    (extract_mode = "summary" →
      countOccur SUMMARY_START_CHARS
          (build_prompt display_name language extract_mode) = 1 ∧
      countOccur SUMMARY_END_CHARS
          (build_prompt display_name language extract_mode) = 1 ∧
      ∃ a b c d,
        findFirstIdx SUMMARY_START_CHARS
            (build_prompt display_name language extract_mode) = some a ∧
        findFirstIdx SUMMARY_END_CHARS
            (build_prompt display_name language extract_mode) = some b ∧
        findFirstIdx TEXT_START_CHARS
            (build_prompt display_name language extract_mode) = some c ∧
        findFirstIdx TEXT_END_CHARS
            (build_prompt display_name language extract_mode) = some d ∧
        a < b ∧ b < c ∧ c < d) := by
  rcases hmode with rfl | rfl
  · rcases hlang with rfl | rfl
    · obtain ⟨c1, c2⟩ := prompt_counts_full_arabic display_name hd1 hd2
      exact ⟨c1, c2, fun h => absurd h (by decide)⟩
    · obtain ⟨c1, c2⟩ := prompt_counts_full_english display_name hd1 hd2
      exact ⟨c1, c2, fun h => absurd h (by decide)⟩
  · rcases hlang with rfl | rfl
    · obtain ⟨c1, c2, c3, c4⟩ :=
        prompt_counts_summary_arabic display_name hd1 hd2 hd3 hd4
      exact ⟨c1, c2, fun _ => ⟨c3, c4,
        prompt_idx_summary_arabic display_name hd1 hd2 hd3 hd4⟩⟩
    · obtain ⟨c1, c2, c3, c4⟩ :=
        prompt_counts_summary_english display_name hd1 hd2 hd3 hd4
      exact ⟨c1, c2, fun _ => ⟨c3, c4,
        prompt_idx_summary_english display_name hd1 hd2 hd3 hd4⟩⟩

set_option maxRecDepth 20000 in
theorem claim_C6_witness :
    countOccur TEXT_START_CHARS (build_prompt "doc.pdf" "arabic" "summary")
        = 1 ∧
    countOccur SUMMARY_START_CHARS (build_prompt "doc.pdf" "arabic" "summary")
        = 1 := by
  have h := claim_C6_prompt_markers "doc.pdf" "arabic" "summary"
    (Or.inl rfl) (Or.inr rfl) (by decide) (by decide) (by decide) (by decide)
  exact ⟨h.1, (h.2.2 rfl).1⟩

end DocAnalyzer
